import Mathlib

/-!
Shallow embedding of `src/main.py`: a single HTTP endpoint (`deploy_app`)
that synthesizes Kubernetes Secret / Deployment / Service / Ingress objects
from an application descriptor (`AppConfig`) and submits them to the cluster
API in a fixed order, short-circuiting on the first raised error.

Python dicts are modelled as association lists (insertion order preserved,
matching Python iteration order).  The cluster is modelled as an oracle
`err : ApiCall → Option String`: `none` means the create call succeeds,
`some e` means it raises an exception with textual message `e`.
`deploy_app` returns the list of create calls actually attempted, in order,
together with the HTTP response.
-/

/-- Python dict truthiness: `None` and the empty dict are falsy. -/
def dictTruthy : Option (List (String × String)) → Bool
  | none => false
  | some d => !d.isEmpty

/-- Python string-or-None truthiness: `None` and `""` are falsy. -/
def strTruthy : Option String → Bool
  | none => false
  | some s => !s.isEmpty

/-- The pydantic request model `AppConfig` (src/main.py lines 10-20). -/
structure AppConfig where
  app_name : String
  replicas : Int
  image_address : String
  image_tag : String
  domain_address : String
  service_port : Int
  resources : List (String × String)
  envs : List (String × String)
  secrets : Option (List (String × String)) := none
  external_access : Bool := false
  deriving DecidableEq, Repr

/-- `client.V1ObjectMeta`. -/
structure V1ObjectMeta where
  name : Option String := none
  labels : Option (List (String × String)) := none
  deriving DecidableEq, Repr

/-- `client.V1Secret` as constructed in `create_secret`. -/
structure V1Secret where
  metadata : V1ObjectMeta
  data : List (String × String)
  deriving DecidableEq, Repr

/-- `client.V1EnvVar`. -/
structure V1EnvVar where
  name : String
  value : String
  deriving DecidableEq, Repr

/-- `client.V1SecretEnvSource`. -/
structure V1SecretEnvSource where
  name : String
  deriving DecidableEq, Repr

/-- `client.V1EnvFromSource`. -/
structure V1EnvFromSource where
  secret_ref : V1SecretEnvSource
  deriving DecidableEq, Repr

/-- `client.V1ContainerPort`. -/
structure V1ContainerPort where
  container_port : Int
  deriving DecidableEq, Repr

/-- `client.V1ResourceRequirements` (only `requests` is ever set). -/
structure V1ResourceRequirements where
  requests : List (String × String)
  deriving DecidableEq, Repr

/-- `client.V1Container` with the fields `create_deployment` sets. -/
structure V1Container where
  name : String
  image : String
  ports : List V1ContainerPort
  env : List V1EnvVar
  resources : V1ResourceRequirements
  env_from : Option (List V1EnvFromSource) := none
  deriving DecidableEq, Repr

/-- `client.V1PodSpec`. -/
structure V1PodSpec where
  containers : List V1Container
  deriving DecidableEq, Repr

/-- `client.V1PodTemplateSpec`. -/
structure V1PodTemplateSpec where
  metadata : V1ObjectMeta
  spec : V1PodSpec
  deriving DecidableEq, Repr

/-- `client.V1DeploymentSpec`; `selector` is passed as a raw dict
`{'matchLabels': {'app': app_name}}` in the source, modelled as a nested
association list. -/
structure V1DeploymentSpec where
  replicas : Int
  template : V1PodTemplateSpec
  selector : List (String × List (String × String))
  deriving DecidableEq, Repr

/-- `client.V1Deployment`. -/
structure V1Deployment where
  api_version : String
  kind : String
  metadata : V1ObjectMeta
  spec : V1DeploymentSpec
  deriving DecidableEq, Repr

/-- `client.V1ServicePort`. -/
structure V1ServicePort where
  port : Int
  target_port : Int
  deriving DecidableEq, Repr

/-- `client.V1ServiceSpec`. -/
structure V1ServiceSpec where
  selector : List (String × String)
  ports : List V1ServicePort
  «type» : String
  deriving DecidableEq, Repr

/-- `client.V1Service`. -/
structure V1Service where
  api_version : String
  kind : String
  metadata : V1ObjectMeta
  spec : V1ServiceSpec
  deriving DecidableEq, Repr

/-- `client.V1ServiceBackendPort`. -/
structure V1ServiceBackendPort where
  number : Int
  deriving DecidableEq, Repr

/-- `client.V1IngressServiceBackend`. -/
structure V1IngressServiceBackend where
  name : String
  port : V1ServiceBackendPort
  deriving DecidableEq, Repr

/-- `client.V1IngressBackend`. -/
structure V1IngressBackend where
  service : V1IngressServiceBackend
  deriving DecidableEq, Repr

/-- `client.V1HTTPIngressPath`. -/
structure V1HTTPIngressPath where
  path : String
  path_type : String
  backend : V1IngressBackend
  deriving DecidableEq, Repr

/-- `client.V1HTTPIngressRuleValue`. -/
structure V1HTTPIngressRuleValue where
  paths : List V1HTTPIngressPath
  deriving DecidableEq, Repr

/-- `client.V1IngressRule`. -/
structure V1IngressRule where
  host : String
  http : V1HTTPIngressRuleValue
  deriving DecidableEq, Repr

/-- `client.V1IngressSpec`. -/
structure V1IngressSpec where
  rules : List V1IngressRule
  deriving DecidableEq, Repr

/-- `client.V1Ingress`. -/
structure V1Ingress where
  api_version : String
  kind : String
  metadata : V1ObjectMeta
  spec : V1IngressSpec
  deriving DecidableEq, Repr

/-- The body submitted by one cluster API create call. -/
inductive ApiObject where
  | secret (s : V1Secret)
  | deployment (d : V1Deployment)
  | service (s : V1Service)
  | ingress (i : V1Ingress)
  deriving DecidableEq, Repr

/-- One cluster API create call: target namespace and submitted object. -/
structure ApiCall where
  «namespace» : String
  body : ApiObject
  deriving DecidableEq, Repr

/-- The resource kind a call creates. -/
inductive ResourceKind where
  | secret
  | deployment
  | service
  | ingress
  deriving DecidableEq, Repr

/-- Kind of the object submitted by a call. -/
def callKind (c : ApiCall) : ResourceKind :=
  match c.body with
  | .secret _ => .secret
  | .deployment _ => .deployment
  | .service _ => .service
  | .ingress _ => .ingress

/-- `create_secret` (src/main.py lines 23-29): builds the Secret and the
create call submitting it. -/
def create_secret (ns : String) (secret_name : String)
    (secret_data : List (String × String)) : ApiCall :=
  let secret : V1Secret :=
    { metadata := { name := some secret_name }
      data := secret_data }
  { «namespace» := ns, body := ApiObject.secret secret }

/-- `create_deployment` (src/main.py lines 32-67): builds the Deployment
and the create call submitting it.  The Python default `secret_name=None`
is passed explicitly by the callers modelled here. -/
def create_deployment (ns : String) (app_name : String) (replicas : Int)
    (image : String) (tag : String) (envs : List (String × String))
    (resources : List (String × String)) (secret_name : Option String) : ApiCall :=
  let container : V1Container :=
    { name := app_name
      image := image ++ ":" ++ tag
      ports := [{ container_port := 80 }]
      env := envs.map (fun kv => { name := kv.1, value := kv.2 })
      resources := { requests := resources }
      env_from := none }
  let container :=
    if strTruthy secret_name then
      { container with
          env_from := some [{ secret_ref := { name := secret_name.getD "" } }] }
    else container
  let template : V1PodTemplateSpec :=
    { metadata := { labels := some [("app", app_name)] }
      spec := { containers := [container] } }
  let spec : V1DeploymentSpec :=
    { replicas := replicas
      template := template
      selector := [("matchLabels", [("app", app_name)])] }
  let deployment : V1Deployment :=
    { api_version := "apps/v1"
      kind := "Deployment"
      metadata := { name := some app_name }
      spec := spec }
  { «namespace» := ns, body := ApiObject.deployment deployment }

/-- `create_service` (src/main.py lines 70-82). -/
def create_service (ns : String) (app_name : String) (service_port : Int) : ApiCall :=
  let service : V1Service :=
    { api_version := "v1"
      kind := "Service"
      metadata := { name := some app_name }
      spec :=
        { selector := [("app", app_name)]
          ports := [{ port := service_port, target_port := 80 }]
          «type» := "ClusterIP" } }
  { «namespace» := ns, body := ApiObject.service service }

/-- `create_ingress` (src/main.py lines 85-113). -/
def create_ingress (ns : String) (app_name : String) (domain_address : String)
    (service_port : Int) : ApiCall :=
  let ingress : V1Ingress :=
    { api_version := "networking.k8s.io/v1"
      kind := "Ingress"
      metadata := { name := some app_name }
      spec :=
        { rules :=
            [{ host := domain_address
               http :=
                 { paths :=
                     [{ path := "/"
                        path_type := "Prefix"
                        backend :=
                          { service :=
                              { name := app_name
                                port := { number := service_port } } } }] } }] } }
  { «namespace» := ns, body := ApiObject.ingress ingress }

/-- The sequence of create calls the handler body issues for a given
descriptor, in source order (src/main.py lines 118-134): Secret only when
`config.secrets` is truthy, then Deployment (with the secret reference
exactly when `config.secrets` is truthy), then Service, then Ingress only
when `config.external_access` is true.  Which calls are issued and their
contents depend only on the descriptor, never on a previous call's result. -/
def plannedCalls (config : AppConfig) : List ApiCall :=
  let ns := "default"
  (if dictTruthy config.secrets then
      [create_secret ns config.app_name (config.secrets.getD [])]
    else []) ++
  [create_deployment ns config.app_name config.replicas config.image_address
      config.image_tag config.envs config.resources
      (if dictTruthy config.secrets then some config.app_name else none),
    create_service ns config.app_name config.service_port] ++
  (if config.external_access then
      [create_ingress ns config.app_name config.domain_address config.service_port]
    else [])

/-- Attempt a list of calls in order against the cluster oracle `err`,
stopping at the first call that raises.  Returns the calls actually
attempted (the raising call included) and the raised message, if any. -/
def runCalls (err : ApiCall → Option String) : List ApiCall → List ApiCall × Option String
  | [] => ([], none)
  | c :: rest =>
    match err c with
    | some e => ([c], some e)
    | none => (c :: (runCalls err rest).1, (runCalls err rest).2)

/-- JSON body of the HTTP response. -/
inductive ResponseBody where
  | success (status : String) (message : String)
  | detail (detail : String)
  deriving DecidableEq, Repr

/-- HTTP response: status code and JSON body. -/
structure HttpResponse where
  status_code : Nat
  body : ResponseBody
  deriving DecidableEq, Repr

/-- `deploy_app` (src/main.py lines 116-137): runs the planned create calls
in order inside one try/except; on success returns HTTP 200 with the
status/message pair, on the first raised exception stops and returns
HTTP 500 with the exception's textual message as detail.  Also returns the
trace of calls attempted. -/
def deploy_app (err : ApiCall → Option String) (config : AppConfig) :
    List ApiCall × HttpResponse :=
  let r := runCalls err (plannedCalls config)
  match r.2 with
  | none =>
    (r.1, { status_code := 200
            body := ResponseBody.success "success"
              ("Application " ++ config.app_name ++ " deployed successfully") })
  | some e => (r.1, { status_code := 500, body := ResponseBody.detail e })

/-- The cluster oracle on which every create call succeeds. -/
def noFail : ApiCall → Option String := fun _ => none

/-- The raw JSON request body, before schema validation: `none` marks an
omitted field.  `secrets` may be provided as a dict or explicit null. -/
structure RawRequest where
  app_name : Option String := none
  replicas : Option Int := none
  image_address : Option String := none
  image_tag : Option String := none
  domain_address : Option String := none
  service_port : Option Int := none
  resources : Option (List (String × String)) := none
  envs : Option (List (String × String)) := none
  secrets : Option (Option (List (String × String))) := none
  external_access : Option Bool := none
  deriving DecidableEq, Repr

/-- Schema validation of the request body against the pydantic model
`AppConfig` (src/main.py lines 10-20): every field declared without a
default (`app_name` through `envs`, including `domain_address`) is
required, `secrets` defaults to `None` and `external_access` to `False`
when omitted.  Returns `none` when validation rejects the body. -/
def AppConfig.validate (r : RawRequest) : Option AppConfig := do
  let app_name ← r.app_name
  let replicas ← r.replicas
  let image_address ← r.image_address
  let image_tag ← r.image_tag
  let domain_address ← r.domain_address
  let service_port ← r.service_port
  let resources ← r.resources
  let envs ← r.envs
  pure
    { app_name := app_name
      replicas := replicas
      image_address := image_address
      image_tag := image_tag
      domain_address := domain_address
      service_port := service_port
      resources := resources
      envs := envs
      secrets := r.secrets.getD none
      external_access := r.external_access.getD false }

/-- The concrete descriptor of the spec's round-trip property. -/
def demoConfig : AppConfig :=
  { app_name := "demo"
    replicas := 2
    image_address := "nginx"
    image_tag := "1.25"
    domain_address := "demo.example.com"
    service_port := 8080
    resources := [("cpu", "100m")]
    envs := [("ENV", "prod")]
    secrets := none
    external_access := true }

/-- Deployments among a trace of calls, in order. -/
def deploymentsOf (tr : List ApiCall) : List V1Deployment :=
  tr.filterMap (fun c =>
    match c.body with
    | .deployment d => some d
    | _ => none)

/-- Services among a trace of calls, in order. -/
def servicesOf (tr : List ApiCall) : List V1Service :=
  tr.filterMap (fun c =>
    match c.body with
    | .service s => some s
    | _ => none)

/-- Ingresses among a trace of calls, in order. -/
def ingressesOf (tr : List ApiCall) : List V1Ingress :=
  tr.filterMap (fun c =>
    match c.body with
    | .ingress i => some i
    | _ => none)

theorem runCalls_eq_of_forall_none (err : ApiCall → Option String) :
    ∀ l : List ApiCall, (∀ c ∈ l, err c = none) → runCalls err l = (l, none) := by
  intro l h
  induction l with
  | nil => rfl
  | cons c rest ih =>
    have hc : err c = none := h c (List.mem_cons_self c rest)
    have hr := ih (fun c' hc' => h c' (List.mem_cons_of_mem c hc'))
    simp [runCalls, hc, hr]

theorem runCalls_noFail (l : List ApiCall) : runCalls noFail l = (l, none) :=
  runCalls_eq_of_forall_none noFail l (fun _ _ => rfl)

theorem deploy_app_noFail (config : AppConfig) :
    deploy_app noFail config =
      (plannedCalls config,
       { status_code := 200
         body := ResponseBody.success "success"
           ("Application " ++ config.app_name ++ " deployed successfully") }) := by
  simp [deploy_app, runCalls_noFail]

theorem runCalls_prefix (err : ApiCall → Option String) :
    ∀ l : List ApiCall, ∃ rest, l = (runCalls err l).1 ++ rest := by
  intro l
  induction l with
  | nil => exact ⟨[], rfl⟩
  | cons c rest ih =>
    cases hc : err c with
    | some e => exact ⟨rest, by simp [runCalls, hc]⟩
    | none =>
      obtain ⟨r0, hr0⟩ := ih
      exact ⟨r0, by simp [runCalls, hc]; exact hr0⟩

theorem runCalls_none_spec (err : ApiCall → Option String) :
    ∀ l : List ApiCall, (runCalls err l).2 = none →
      (runCalls err l).1 = l ∧ ∀ c ∈ l, err c = none := by
  intro l
  induction l with
  | nil => intro _; exact ⟨rfl, by simp⟩
  | cons c rest ih =>
    intro h
    cases hc : err c with
    | some e => simp [runCalls, hc] at h
    | none =>
      simp only [runCalls, hc] at h ⊢
      obtain ⟨h1, h2⟩ := ih h
      constructor
      · simp [h1]
      · intro c' hc'
        rcases List.mem_cons.mp hc' with h' | h'
        · exact h' ▸ hc
        · exact h2 c' h'

theorem runCalls_some_spec (err : ApiCall → Option String) :
    ∀ (l : List ApiCall) (e : String), (runCalls err l).2 = some e →
      ∃ tr0 c, (runCalls err l).1 = tr0 ++ [c] ∧ err c = some e ∧
        ∀ c0 ∈ tr0, err c0 = none := by
  intro l
  induction l with
  | nil => intro e h; simp [runCalls] at h
  | cons c rest ih =>
    intro e h
    cases hc : err c with
    | some e' =>
      simp only [runCalls, hc] at h ⊢
      obtain rfl : e' = e := by simpa using h
      exact ⟨[], c, by simp, hc, by simp⟩
    | none =>
      simp only [runCalls, hc] at h ⊢
      obtain ⟨tr0, c0, h1, h2, h3⟩ := ih e h
      refine ⟨c :: tr0, c0, by simp [h1], h2, ?_⟩
      intro c1 hc1
      rcases List.mem_cons.mp hc1 with h' | h'
      · exact h' ▸ hc
      · exact h3 c1 h'

/-- C1: for a descriptor whose secrets mapping is empty or absent and whose
external_access is false, Deploy performs exactly two cluster API create
calls — a Deployment create followed by a Service create, in that order —
and no Secret create and no Ingress create. -/
theorem deploy_plain_two_calls (config : AppConfig)
    (hs : dictTruthy config.secrets = false)
    (he : config.external_access = false) :
    ((deploy_app noFail config).1).map callKind =
      [ResourceKind.deployment, ResourceKind.service] := by
  simp [deploy_app_noFail, plannedCalls, hs, he, callKind,
    create_deployment, create_service]

theorem deploy_plain_two_calls_witness :
    ((deploy_app noFail { demoConfig with external_access := false }).1).map callKind =
      [ResourceKind.deployment, ResourceKind.service] :=
  deploy_plain_two_calls { demoConfig with external_access := false } rfl rfl

/-- C2: for a descriptor whose secrets mapping is non-empty (and whose
app_name is non-empty, as the data model requires), Deploy performs a
Secret create call first and the Deployment create call second, and the
Deployment's single container carries an envFrom reference to a secret
named app_name. -/
theorem deploy_secret_before_deployment (config : AppConfig)
    (hs : dictTruthy config.secrets = true)
    (hn : config.app_name ≠ "") :
    ((deploy_app noFail config).1).get? 0 =
        some (create_secret "default" config.app_name (config.secrets.getD [])) ∧
    ((deploy_app noFail config).1).get? 1 =
        some (create_deployment "default" config.app_name config.replicas
          config.image_address config.image_tag config.envs config.resources
          (some config.app_name)) ∧
    (deploymentsOf (deploy_app noFail config).1).map
        (fun d => d.spec.template.spec.containers.map (fun c => c.env_from)) =
      [[some [{ secret_ref := { name := config.app_name } }]]] := by
  have hne : config.app_name.isEmpty = false := by
    cases h : config.app_name.isEmpty with
    | false => rfl
    | true => exact absurd ((String.isEmpty_iff config.app_name).mp h) hn
  cases hext : config.external_access <;>
    simp [deploy_app_noFail, plannedCalls, hs, hext, deploymentsOf,
      create_secret, create_deployment, create_service, create_ingress,
      strTruthy, hne]

theorem deploy_secret_before_deployment_witness :
    ((deploy_app noFail { demoConfig with secrets := some [("K", "Vg==")] }).1).get? 0 =
        some (create_secret "default" "demo" [("K", "Vg==")]) ∧
    ((deploy_app noFail { demoConfig with secrets := some [("K", "Vg==")] }).1).get? 1 =
        some (create_deployment "default" "demo" 2 "nginx" "1.25"
          [("ENV", "prod")] [("cpu", "100m")] (some "demo")) ∧
    (deploymentsOf (deploy_app noFail { demoConfig with secrets := some [("K", "Vg==")] }).1).map
        (fun d => d.spec.template.spec.containers.map (fun c => c.env_from)) =
      [[some [{ secret_ref := { name := "demo" } }]]] :=
  deploy_secret_before_deployment { demoConfig with secrets := some [("K", "Vg==")] }
    rfl (by decide)

/-- C3: for a descriptor with external_access = true, when all preceding
create calls succeed, the Ingress create call comes right after the Service
create call (the Service is second-to-last, the Ingress last), and the
submitted Ingress has exactly one rule with host = domain_address, a single
HTTP path "/" with pathType Prefix, and a backend naming service app_name
with port number service_port. -/
theorem deploy_ingress_after_service (config : AppConfig)
    (he : config.external_access = true) :
    ((deploy_app noFail config).1).getLast? =
        some (create_ingress "default" config.app_name config.domain_address
          config.service_port) ∧
    ((deploy_app noFail config).1).get? (((deploy_app noFail config).1).length - 2) =
        some (create_service "default" config.app_name config.service_port) ∧
    (ingressesOf (deploy_app noFail config).1).map
        (fun i => i.spec.rules.map (fun r =>
          (r.host, r.http.paths.map (fun p =>
            (p.path, p.path_type, p.backend.service.name,
              p.backend.service.port.number))))) =
      [[(config.domain_address,
          [("/", "Prefix", config.app_name, config.service_port)])]] := by
  cases hsec : dictTruthy config.secrets <;>
    simp [deploy_app_noFail, plannedCalls, he, hsec, ingressesOf,
      create_secret, create_deployment, create_service, create_ingress]

theorem deploy_ingress_after_service_witness :
    ((deploy_app noFail demoConfig).1).getLast? =
        some (create_ingress "default" "demo" "demo.example.com" 8080) ∧
    ((deploy_app noFail demoConfig).1).get? (((deploy_app noFail demoConfig).1).length - 2) =
        some (create_service "default" "demo" 8080) ∧
    (ingressesOf (deploy_app noFail demoConfig).1).map
        (fun i => i.spec.rules.map (fun r =>
          (r.host, r.http.paths.map (fun p =>
            (p.path, p.path_type, p.backend.service.name,
              p.backend.service.port.number))))) =
      [[("demo.example.com", [("/", "Prefix", "demo", 8080)])]] :=
  deploy_ingress_after_service demoConfig rfl

/-- C5: for the spec's concrete demo descriptor, the synthesized Deployment
has replicas 2, container image "nginx:1.25" and exactly the env var
ENV=prod; the synthesized Service has port 8080 and targetPort 80; and the
synthesized Ingress routes host "demo.example.com" path "/" to service
"demo" on port 8080. -/
theorem demo_round_trip :
    (deploymentsOf (deploy_app noFail demoConfig).1).map
        (fun d => (d.spec.replicas,
          d.spec.template.spec.containers.map (fun c => (c.image, c.env)))) =
      [(2, [("nginx:1.25", [{ name := "ENV", value := "prod" }])])] ∧
    (servicesOf (deploy_app noFail demoConfig).1).map
        (fun s => s.spec.ports.map (fun p => (p.port, p.target_port))) =
      [[(8080, 80)]] ∧
    (ingressesOf (deploy_app noFail demoConfig).1).map
        (fun i => i.spec.rules.map (fun r =>
          (r.host, r.http.paths.map (fun p =>
            (p.path, p.backend.service.name, p.backend.service.port.number))))) =
      [[("demo.example.com", [("/", "demo", 8080)])]] := by
  decide

/-- C6: for every descriptor, the synthesized Service is a ClusterIP
Service named app_name with selector app = app_name and a single port
entry port = service_port, targetPort = 80, while the Deployment's single
container exposes container port 80 regardless of service_port. -/
theorem service_shape_invariant (config : AppConfig) :
    (servicesOf (deploy_app noFail config).1).map
        (fun s => (s.api_version, s.kind, s.metadata.name, s.spec.«type»,
          s.spec.selector, s.spec.ports)) =
      [("v1", "Service", some config.app_name, "ClusterIP",
        [("app", config.app_name)],
        [{ port := config.service_port, target_port := 80 }])] ∧
    (deploymentsOf (deploy_app noFail config).1).map
        (fun d => d.spec.template.spec.containers.map (fun c => c.ports)) =
      [[[{ container_port := 80 }]]] := by
  cases hname : config.app_name.isEmpty <;>
    cases hsec : dictTruthy config.secrets <;>
    cases hext : config.external_access <;>
    simp [deploy_app_noFail, plannedCalls, hsec, hext, servicesOf, deploymentsOf,
      create_secret, create_deployment, create_service, create_ingress,
      strTruthy, hname]

theorem deploy_app_fst_eq (err : ApiCall → Option String) (config : AppConfig) :
    (deploy_app err config).1 = (runCalls err (plannedCalls config)).1 := by
  cases h : (runCalls err (plannedCalls config)).2 <;> simp [deploy_app, h]

theorem deploy_app_trace_prefix (err : ApiCall → Option String) (config : AppConfig) :
    ∃ rest, plannedCalls config = (deploy_app err config).1 ++ rest := by
  rw [deploy_app_fst_eq]
  exact runCalls_prefix err (plannedCalls config)

theorem deploy_app_trace_mem (err : ApiCall → Option String) (config : AppConfig) :
    ∀ c ∈ (deploy_app err config).1, c ∈ plannedCalls config := by
  intro c hc
  obtain ⟨rest, hrest⟩ := deploy_app_trace_prefix err config
  rw [hrest]
  exact List.mem_append_left _ hc

theorem callKind_create_secret (ns n : String) (d : List (String × String)) :
    callKind (create_secret ns n d) = ResourceKind.secret := rfl

theorem callKind_create_deployment (ns a : String) (r : Int) (i t : String)
    (e rs : List (String × String)) (s : Option String) :
    callKind (create_deployment ns a r i t e rs s) = ResourceKind.deployment := rfl

theorem callKind_create_service (ns a : String) (p : Int) :
    callKind (create_service ns a p) = ResourceKind.service := rfl

theorem callKind_create_ingress (ns a da : String) (p : Int) :
    callKind (create_ingress ns a da p) = ResourceKind.ingress := rfl

theorem plannedCalls_mem_cases (config : AppConfig) :
    ∀ c ∈ plannedCalls config,
      (c = create_secret "default" config.app_name (config.secrets.getD []) ∧
        dictTruthy config.secrets = true) ∨
      c = create_deployment "default" config.app_name config.replicas
        config.image_address config.image_tag config.envs config.resources
        (if dictTruthy config.secrets then some config.app_name else none) ∨
      c = create_service "default" config.app_name config.service_port ∨
      (c = create_ingress "default" config.app_name config.domain_address
        config.service_port ∧ config.external_access = true) := by
  intro c hc
  cases hsec : dictTruthy config.secrets <;> cases hext : config.external_access <;>
    simp [plannedCalls, hsec, hext] at hc ⊢ <;> tauto

theorem deploy_app_success_of_trace_ok (err : ApiCall → Option String)
    (config : AppConfig)
    (h : ∀ c ∈ (deploy_app err config).1, err c = none) :
    (deploy_app err config).2 =
      { status_code := 200
        body := ResponseBody.success "success"
          ("Application " ++ config.app_name ++ " deployed successfully") } := by
  cases hr : (runCalls err (plannedCalls config)).2 with
  | none => simp [deploy_app, hr]
  | some e =>
    exfalso
    obtain ⟨tr0, c, h1, h2, h3⟩ := runCalls_some_spec err (plannedCalls config) e hr
    have hmem : c ∈ (deploy_app err config).1 := by
      rw [deploy_app_fst_eq, h1]
      simp
    simp [h c hmem] at h2

/-- C4: for every descriptor and every behavior of the cluster, the attempted
calls form a prefix of the planned call sequence, and either some call raised
— then it is the last attempted call, every earlier one succeeded, and the
response is HTTP 500 whose detail is the raised error's message — or every
call succeeded, the whole sequence ran, and the response is HTTP 200 with
body status "success" and message "Application <app_name> deployed
successfully". -/
theorem deploy_error_handling (err : ApiCall → Option String) (config : AppConfig) :
    (deploy_app err config).1 =
      (plannedCalls config).take ((deploy_app err config).1).length ∧
    ((∃ e tr0 c,
        (deploy_app err config).1 = tr0 ++ [c] ∧ err c = some e ∧
        (∀ c0 ∈ tr0, err c0 = none) ∧
        (deploy_app err config).2 =
          { status_code := 500, body := ResponseBody.detail e }) ∨
      ((∀ c ∈ (deploy_app err config).1, err c = none) ∧
        (deploy_app err config).1 = plannedCalls config ∧
        (deploy_app err config).2 =
          { status_code := 200
            body := ResponseBody.success "success"
              ("Application " ++ config.app_name ++ " deployed successfully") })) := by
  constructor
  · obtain ⟨rest, hrest⟩ := deploy_app_trace_prefix err config
    conv_lhs => rw [← List.take_left (deploy_app err config).1 rest]
    rw [← hrest]
  · cases hr : (runCalls err (plannedCalls config)).2 with
    | none =>
      right
      obtain ⟨h1, h2⟩ := runCalls_none_spec err (plannedCalls config) hr
      refine ⟨?_, ?_, by simp [deploy_app, hr]⟩
      · intro c hc
        exact h2 c (deploy_app_trace_mem err config c hc)
      · rw [deploy_app_fst_eq, h1]
    | some e =>
      left
      obtain ⟨tr0, c, h1, h2, h3⟩ := runCalls_some_spec err (plannedCalls config) e hr
      exact ⟨e, tr0, c, by rw [deploy_app_fst_eq, h1], h2, h3,
        by simp [deploy_app, hr]⟩

/-- A cluster oracle that fails exactly the Service create with message
"boom"; used to exercise the error path at a concrete input. -/
def failOnService : ApiCall → Option String := fun c =>
  match callKind c with
  | ResourceKind.service => some "boom"
  | _ => none

theorem deploy_error_handling_witness :
    (deploy_app failOnService demoConfig).1 =
      (plannedCalls demoConfig).take ((deploy_app failOnService demoConfig).1).length ∧
    ((∃ e tr0 c,
        (deploy_app failOnService demoConfig).1 = tr0 ++ [c] ∧
        failOnService c = some e ∧
        (∀ c0 ∈ tr0, failOnService c0 = none) ∧
        (deploy_app failOnService demoConfig).2 =
          { status_code := 500, body := ResponseBody.detail e }) ∨
      ((∀ c ∈ (deploy_app failOnService demoConfig).1, failOnService c = none) ∧
        (deploy_app failOnService demoConfig).1 = plannedCalls demoConfig ∧
        (deploy_app failOnService demoConfig).2 =
          { status_code := 200
            body := ResponseBody.success "success"
              ("Application " ++ demoConfig.app_name ++ " deployed successfully") })) :=
  deploy_error_handling failOnService demoConfig

/-- C8: every cluster API create call Deploy performs — under any cluster
behavior and for any descriptor — targets the namespace "default". -/
theorem namespace_always_default (err : ApiCall → Option String) (config : AppConfig) :
    ∀ c ∈ (deploy_app err config).1, c.«namespace» = "default" := by
  intro c hc
  rcases plannedCalls_mem_cases config c (deploy_app_trace_mem err config c hc) with
    ⟨rfl, _⟩ | rfl | rfl | ⟨rfl, _⟩ <;> rfl

theorem namespace_always_default_witness :
    (create_service "default" "demo" 8080).«namespace» = "default" :=
  namespace_always_default noFail demoConfig (create_service "default" "demo" 8080)
    (by decide)

/-- C9: Deploy on a descriptor with secrets equal to the empty mapping is
extensionally equal to Deploy on the same descriptor with secrets absent:
identical call traces and responses under every cluster behavior, no Secret
create call in the trace, and every synthesized Deployment container has no
envFrom reference. -/
theorem secrets_empty_equals_absent (err : ApiCall → Option String)
    (config : AppConfig) :
    deploy_app err { config with secrets := some [] } =
      deploy_app err { config with secrets := none } ∧
    (∀ c ∈ (deploy_app err { config with secrets := none }).1,
      callKind c ≠ ResourceKind.secret) ∧
    (∀ d ∈ deploymentsOf (deploy_app err { config with secrets := none }).1,
      ∀ ct ∈ d.spec.template.spec.containers, ct.env_from = none) := by
  refine ⟨?_, ?_, ?_⟩
  · have hplan : plannedCalls { config with secrets := some [] } =
        plannedCalls { config with secrets := none } := by
      simp [plannedCalls, dictTruthy]
    simp [deploy_app, hplan]
  · intro c hc
    rcases plannedCalls_mem_cases _ c
        (deploy_app_trace_mem err { config with secrets := none } c hc) with
      ⟨_, habs⟩ | rfl | rfl | ⟨rfl, _⟩
    · simp [dictTruthy] at habs
    · simp [callKind_create_deployment]
    · simp [callKind_create_service]
    · simp [callKind_create_ingress]
  · intro d hd ct hct
    rw [deploymentsOf, List.mem_filterMap] at hd
    obtain ⟨c, hc, hcd⟩ := hd
    rcases plannedCalls_mem_cases _ c
        (deploy_app_trace_mem err { config with secrets := none } c hc) with
      ⟨_, habs⟩ | rfl | rfl | ⟨rfl, _⟩
    · simp [dictTruthy] at habs
    · simp [create_deployment, dictTruthy, strTruthy] at hcd
      subst hcd
      simp at hct
      subst hct
      rfl
    · simp [create_service] at hcd
    · simp [create_ingress] at hcd

theorem secrets_empty_equals_absent_witness :
    deploy_app noFail { demoConfig with secrets := some [] } =
      deploy_app noFail { demoConfig with secrets := none } :=
  (secrets_empty_equals_absent noFail demoConfig).1

/-- C10: whenever all performed cluster calls succeed, the success response
depends only on app_name: two descriptors with equal app_name yield
identical responses. -/
theorem success_depends_only_on_app_name (err1 err2 : ApiCall → Option String)
    (c1 c2 : AppConfig) (hname : c1.app_name = c2.app_name)
    (h1 : ∀ c ∈ (deploy_app err1 c1).1, err1 c = none)
    (h2 : ∀ c ∈ (deploy_app err2 c2).1, err2 c = none) :
    (deploy_app err1 c1).2 = (deploy_app err2 c2).2 := by
  rw [deploy_app_success_of_trace_ok err1 c1 h1,
    deploy_app_success_of_trace_ok err2 c2 h2, hname]

theorem success_depends_only_on_app_name_witness :
    (deploy_app noFail demoConfig).2 =
      (deploy_app noFail
        { demoConfig with
            replicas := 7
            service_port := 9090
            external_access := false }).2 :=
  success_depends_only_on_app_name noFail noFail demoConfig
    { demoConfig with replicas := 7, service_port := 9090, external_access := false }
    rfl (fun _ _ => rfl) (fun _ _ => rfl)

/-- A request body omitting only domain_address, with external_access
explicitly false. -/
def noDomainRequest : RawRequest :=
  { app_name := some "demo"
    replicas := some 1
    image_address := some "nginx"
    image_tag := some "latest"
    domain_address := none
    service_port := some 80
    resources := some []
    envs := some []
    secrets := none
    external_access := some false }

/-- C7 counterexample: a request body that omits domain_address is rejected
by schema validation even though its external_access is false, contrary to
the claim that it would pass and be accepted. -/
theorem domain_required_counterexample :
    AppConfig.validate noDomainRequest = none := rfl

/-- C7 (amended): domain_address is unconditionally required by the request
schema: every request body omitting it is rejected by schema validation,
whatever the value of external_access. -/
theorem domain_address_always_required (r : RawRequest)
    (h : r.domain_address = none) :
    AppConfig.validate r = none := by
  cases ha : r.app_name <;> cases hrep : r.replicas <;> cases hia : r.image_address <;>
    cases hit : r.image_tag <;>
    simp [AppConfig.validate, ha, hrep, hia, hit, h]

theorem domain_address_always_required_witness :
    AppConfig.validate
      { app_name := some "demo"
        replicas := some 1
        image_address := some "nginx"
        image_tag := some "latest"
        domain_address := none
        service_port := some 80
        resources := some []
        envs := some []
        secrets := none
        external_access := some true } = none :=
  domain_address_always_required
    { app_name := some "demo"
      replicas := some 1
      image_address := some "nginx"
      image_tag := some "latest"
      domain_address := none
      service_port := some 80
      resources := some []
      envs := some []
      secrets := none
      external_access := some true } rfl
